import Mathlib

set_option linter.unusedVariables false

/-!
Shallow embedding of the escrowly Anchor program
(programs/escrowly/src): the escrow lifecycle state machine with its
confirm / revoke / dispute / resolve_dispute / release / cancel
instruction handlers, and the external SPL token operations
(transfer_checked, close_account) they invoke, modelled at the
interface described by the specification (a transfer fails atomically
on insufficient balance; a close fails on a non-zero balance).

Pubkeys are modelled as natural numbers (only equality is used by the
program logic).  Anchor clock sysvar reads are modelled by passing the
current unix timestamp as an explicit `now : Int` argument.
-/

/-- Lifecycle states, from states/escrow.rs (enum EscrowStatus). -/
inductive EscrowStatus
  | Pending
  | Confirmed
  | Disputed
  | Cancelled
  | Released
deriving DecidableEq, Repr

/-- The escrow record, from states/escrow.rs (struct Escrow).

In addition to the fields declared in states/escrow.rs, the handlers in
contexts/release.rs and contexts/cancel.rs read and write a field
`is_release_initiated` that the struct declaration does not contain
(those two modules stem from an earlier, pre-arbitration revision of the
data model and do not type-check against the committed struct).  The
field is included here so that the behaviour of those two handlers can
be stated; it is false at initialization (Anchor account data is
zero-initialized and initialize_escrow never assigns it). -/
structure Escrow where
  bump : Nat
  sender : Nat
  intermediary : Nat
  receiver : Nat
  arbitrator : Nat
  mint : Nat
  amount : Nat
  deadline : Int
  intermediary_confirmed : Bool
  receiver_confirmed : Bool
  status : EscrowStatus
  is_release_initiated : Bool
deriving DecidableEq, Repr

/-- Party roles eligible to confirm or revoke, from contexts/confirm.rs. -/
inductive Role
  | Intermediary
  | Receiver
deriving DecidableEq, Repr

/-- Dispute resolutions, from contexts/resolve_dispute.rs. -/
inductive DisputeResolution
  | Release
  | Cancel
deriving DecidableEq, Repr

/-- Errors of the confirm instruction, from contexts/confirm.rs. -/
inductive ConfirmError
  | Unauthorized
  | AlreadyConfirmed
  | ConfirmationPeriodExpired
  | InvalidEscrowState
deriving DecidableEq, Repr

/-- Errors of the revoke instruction, from contexts/revoke.rs. -/
inductive RevokeError
  | Unauthorized
  | NotConfirmed
  | RevocationPeriodExpired
  | InvalidEscrowState
deriving DecidableEq, Repr

/-- Errors of the dispute instruction, from contexts/dispute.rs. -/
inductive DisputeError
  | InvalidEscrowState
deriving DecidableEq, Repr

/-- Shared tail of Confirm::confirm in contexts/confirm.rs: after a flag
was set, advance the status to Confirmed when both confirmations exist. -/
def finishConfirm (e : Escrow) : Escrow × Option ConfirmError :=
  if e.intermediary_confirmed && e.receiver_confirmed then
    ({ e with status := EscrowStatus.Confirmed }, none)
  else
    (e, none)

/-- Confirm::confirm from contexts/confirm.rs.  `signer` is the key of
the transaction signer, `now` the clock sysvar timestamp.  The returned
escrow is the record state at the point the handler returns (on the
error paths no field has been assigned yet). -/
def confirm (signer : Nat) (role : Role) (now : Int) (e : Escrow) :
    Escrow × Option ConfirmError :=
  if now > e.deadline then
    (e, some ConfirmError.ConfirmationPeriodExpired)
  else if e.status ≠ EscrowStatus.Pending then
    (e, some ConfirmError.InvalidEscrowState)
  else
    match role with
    | Role.Intermediary =>
      if signer ≠ e.intermediary then
        (e, some ConfirmError.Unauthorized)
      else if e.intermediary_confirmed then
        (e, some ConfirmError.AlreadyConfirmed)
      else
        finishConfirm { e with intermediary_confirmed := true }
    | Role.Receiver =>
      if signer ≠ e.receiver then
        (e, some ConfirmError.Unauthorized)
      else if e.receiver_confirmed then
        (e, some ConfirmError.AlreadyConfirmed)
      else
        finishConfirm { e with receiver_confirmed := true }

/-- Revoke::revoke from contexts/revoke.rs. -/
def revoke (signer : Nat) (role : Role) (now : Int) (e : Escrow) :
    Escrow × Option RevokeError :=
  if now > e.deadline then
    (e, some RevokeError.RevocationPeriodExpired)
  else if e.status ≠ EscrowStatus.Pending then
    (e, some RevokeError.InvalidEscrowState)
  else
    match role with
    | Role.Intermediary =>
      if signer ≠ e.intermediary then
        (e, some RevokeError.Unauthorized)
      else if !e.intermediary_confirmed then
        (e, some RevokeError.NotConfirmed)
      else
        ({ e with intermediary_confirmed := false }, none)
    | Role.Receiver =>
      if signer ≠ e.receiver then
        (e, some RevokeError.Unauthorized)
      else if !e.receiver_confirmed then
        (e, some RevokeError.NotConfirmed)
      else
        ({ e with receiver_confirmed := false }, none)

/-- Dispute::dispute from contexts/dispute.rs.  The signer key is taken
by the handler (it appears in the emitted event) but is never compared
against any stored identity: the accounts struct carries a plain
Signer with no constraint and the handler performs no key check. -/
def dispute (signer : Nat) (e : Escrow) : Escrow × Option DisputeError :=
  if e.status ≠ EscrowStatus.Pending ∧ e.status ≠ EscrowStatus.Confirmed then
    (e, some DisputeError.InvalidEscrowState)
  else
    ({ e with status := EscrowStatus.Disputed }, none)

/-- Failure modes of the external SPL token program operations, at the
interface the specification gives for the Asset Transfer Service and the
Account Closer. -/
inductive TokenError
  | InsufficientFunds
  | NonZeroBalanceClose
deriving DecidableEq, Repr

/-- anchor_spl token::transfer_checked at the specified interface: moves
`amount` from one balance to the other, failing atomically when the
source balance is insufficient. -/
def transfer_checked (fromBal toBal amount : Nat) : Option (Nat × Nat) :=
  if amount ≤ fromBal then some (fromBal - amount, toBal + amount) else none

/-- anchor_spl token::close_account at the specified interface: retires
a token account, failing when its balance is non-zero. -/
def close_account (bal : Nat) : Option Unit :=
  if bal = 0 then some () else none

/-- Errors of the release instruction, from contexts/release.rs, plus a
constructor for propagated token-program (CPI) failures. -/
inductive ReleaseError
  | NotFullyConfirmed
  | AlreadyReleased
  | Cpi (e : TokenError)
deriving DecidableEq, Repr

/-- Result of a release instruction: the escrow record as the handler
leaves it, the custody vault balance (none once the vault account was
closed), the balance of the token account of the stored intermediary
(the fixed destination enforced by the accounts constraints), and the
outcome. -/
structure ReleaseOutcome where
  escrow : Escrow
  vault : Option Nat
  intermediaryAta : Nat
  err : Option ReleaseError
deriving DecidableEq, Repr

/-- Release::release from contexts/release.rs.  The accounts struct
declares a plain Signer `caller` that is never compared against any
stored identity, and contains no clock sysvar; the handler reads
neither, so `caller` and `now` are unused below, mirroring the source.
The handler checks the two confirmation flags (not the status field),
sets `is_release_initiated`, transfers `amount` from the vault to the
token account of the stored intermediary and closes the vault; it never
assigns the status field. -/
def release (caller : Nat) (now : Int) (e : Escrow)
    (vault intermediaryAta : Nat) : ReleaseOutcome :=
  if !e.intermediary_confirmed || !e.receiver_confirmed then
    ⟨e, some vault, intermediaryAta, some ReleaseError.NotFullyConfirmed⟩
  else if e.is_release_initiated then
    ⟨e, some vault, intermediaryAta, some ReleaseError.AlreadyReleased⟩
  else
    let e2 := { e with is_release_initiated := true }
    match transfer_checked vault intermediaryAta e2.amount with
    | none =>
      ⟨e2, some vault, intermediaryAta,
        some (ReleaseError.Cpi TokenError.InsufficientFunds)⟩
    | some (v2, ata2) =>
      match close_account v2 with
      | none =>
        ⟨e2, some v2, ata2,
          some (ReleaseError.Cpi TokenError.NonZeroBalanceClose)⟩
      | some _ => ⟨e2, none, ata2, none⟩

/-- Errors of the cancel instruction, from contexts/cancel.rs, plus a
constructor for the Anchor `has_one = sender` account constraint and one
for propagated token-program (CPI) failures. -/
inductive CancelError
  | ConstraintHasOne
  | ReleaseAlreadyInitiated
  | PartialConfirmationNotExpired
  | Cpi (e : TokenError)
deriving DecidableEq, Repr

/-- Result of a cancel instruction: escrow record, vault balance (none
once closed), balance of the token account of the stored sender, and
the outcome. -/
structure CancelOutcome where
  escrow : Escrow
  vault : Option Nat
  senderAta : Nat
  err : Option CancelError
deriving DecidableEq, Repr

/-- Cancel::refund_and_close_vault from contexts/cancel.rs, including
the `has_one = sender` constraint of the accounts struct (the signer
must be the stored sender).  The handler never reads the status field:
it rejects when `is_release_initiated` is set, rejects when a
confirmation flag is set and the clock timestamp is strictly before the
deadline, and otherwise refunds `amount` from the vault to the sender
and closes the vault. -/
def cancel (signer : Nat) (now : Int) (e : Escrow)
    (vault senderAta : Nat) : CancelOutcome :=
  if signer ≠ e.sender then
    ⟨e, some vault, senderAta, some CancelError.ConstraintHasOne⟩
  else if e.is_release_initiated then
    ⟨e, some vault, senderAta, some CancelError.ReleaseAlreadyInitiated⟩
  else if (e.intermediary_confirmed || e.receiver_confirmed) ∧ now < e.deadline then
    ⟨e, some vault, senderAta, some CancelError.PartialConfirmationNotExpired⟩
  else
    match transfer_checked vault senderAta e.amount with
    | none =>
      ⟨e, some vault, senderAta,
        some (CancelError.Cpi TokenError.InsufficientFunds)⟩
    | some (v2, ata2) =>
      match close_account v2 with
      | none =>
        ⟨e, some v2, ata2,
          some (CancelError.Cpi TokenError.NonZeroBalanceClose)⟩
      | some _ => ⟨e, none, ata2, none⟩

/-- Errors of the resolve_dispute instruction, from
contexts/resolve_dispute.rs, plus a constructor for propagated
token-program (CPI) failures. -/
inductive ResolveDisputeError
  | InvalidEscrowState
  | Cpi (e : TokenError)
deriving DecidableEq, Repr

/-- Result of a resolve_dispute instruction: escrow record, vault
balance (none once closed), and the balances of the token accounts of
the stored intermediary and of the stored sender, plus the outcome. -/
structure ResolveOutcome where
  escrow : Escrow
  vault : Option Nat
  intermediaryAta : Nat
  senderAta : Nat
  err : Option ResolveDisputeError
deriving DecidableEq, Repr

/-- ResolveDispute::resolve_dispute from contexts/resolve_dispute.rs.
The accounts struct declares a Signer named `arbitrator` but neither the
constraints nor the handler ever compare it against the stored
arbitrator key; `signer` is therefore unused below, mirroring the
source.  From status Disputed, resolution Release moves `amount` from
the vault to the intermediary and sets status Released; resolution
Cancel moves `amount` back to the sender and sets status Cancelled; the
status assignment follows the two token operations. -/
def resolve_dispute (signer : Nat) (resolution : DisputeResolution)
    (e : Escrow) (vault intermediaryAta senderAta : Nat) : ResolveOutcome :=
  if e.status ≠ EscrowStatus.Disputed then
    ⟨e, some vault, intermediaryAta, senderAta,
      some ResolveDisputeError.InvalidEscrowState⟩
  else
    match resolution with
    | DisputeResolution.Release =>
      match transfer_checked vault intermediaryAta e.amount with
      | none =>
        ⟨e, some vault, intermediaryAta, senderAta,
          some (ResolveDisputeError.Cpi TokenError.InsufficientFunds)⟩
      | some (v2, ata2) =>
        match close_account v2 with
        | none =>
          ⟨e, some v2, ata2, senderAta,
            some (ResolveDisputeError.Cpi TokenError.NonZeroBalanceClose)⟩
        | some _ =>
          ⟨{ e with status := EscrowStatus.Released }, none, ata2, senderAta, none⟩
    | DisputeResolution.Cancel =>
      match transfer_checked vault senderAta e.amount with
      | none =>
        ⟨e, some vault, intermediaryAta, senderAta,
          some (ResolveDisputeError.Cpi TokenError.InsufficientFunds)⟩
      | some (v2, ata2) =>
        match close_account v2 with
        | none =>
          ⟨e, some v2, intermediaryAta, ata2,
            some (ResolveDisputeError.Cpi TokenError.NonZeroBalanceClose)⟩
        | some _ =>
          ⟨{ e with status := EscrowStatus.Cancelled }, none, intermediaryAta, ata2, none⟩

/-- Errors of the initialize instruction: the accounts constraint
`sender_ata.amount >= sender_amount` from contexts/initialize.rs, plus
propagated token-program (CPI) failures of the deposit. -/
inductive InitializeError
  | ConstraintRaised
  | Cpi (e : TokenError)
deriving DecidableEq, Repr

/-- Result of an initialize instruction: the created escrow record (none
when account validation failed), the remaining sender token balance and
the vault balance, and the outcome. -/
structure InitializeOutcome where
  escrow : Option Escrow
  senderAta : Nat
  vault : Nat
  err : Option InitializeError
deriving DecidableEq, Repr

/-- Initialize::initialize_escrow from contexts/initialize.rs: the field
assignments performed on the freshly created record.  No check on
`sender_amount` is performed.  `is_release_initiated` is never assigned
and stays at its zero-initialized value false. -/
def initialize_escrow (bump sender intermediary receiver arbitrator mint : Nat)
    (sender_amount : Nat) (deadline : Int) : Escrow :=
  { bump := bump, sender := sender, intermediary := intermediary,
    receiver := receiver, arbitrator := arbitrator, mint := mint,
    amount := sender_amount, deadline := deadline,
    intermediary_confirmed := false, receiver_confirmed := false,
    status := EscrowStatus.Pending, is_release_initiated := false }

/-- The initialize entrypoint from lib.rs: account validation (the
`sender_ata.amount >= sender_amount` constraint), then
initialize_escrow, then deposit (a transfer_checked of `sender_amount`
from the sender token account into the fresh vault, whose balance
starts at 0). -/
def initializeIx (bump sender intermediary receiver arbitrator mint : Nat)
    (sender_amount : Nat) (deadline : Int) (senderAta : Nat) :
    InitializeOutcome :=
  if senderAta < sender_amount then
    ⟨none, senderAta, 0, some InitializeError.ConstraintRaised⟩
  else
    let e := initialize_escrow bump sender intermediary receiver arbitrator
      mint sender_amount deadline
    match transfer_checked senderAta 0 sender_amount with
    | none =>
      ⟨some e, senderAta, 0, some (InitializeError.Cpi TokenError.InsufficientFunds)⟩
    | some (s2, v2) => ⟨some e, s2, v2, none⟩

/-- A base escrow record used by the concrete instances below: amount
1000, deadline 3600, no confirmations, status Pending. -/
def baseEscrow : Escrow :=
  { bump := 0, sender := 1, intermediary := 2, receiver := 3,
    arbitrator := 4, mint := 5, amount := 1000, deadline := 3600,
    intermediary_confirmed := false, receiver_confirmed := false,
    status := EscrowStatus.Pending, is_release_initiated := false }

/-- A fully confirmed escrow: both flags set, status Confirmed. -/
def confirmedEscrow : Escrow :=
  { baseEscrow with
    intermediary_confirmed := true
    receiver_confirmed := true
    status := EscrowStatus.Confirmed }

/-- A disputed escrow with no confirmation flags set. -/
def disputedEscrow : Escrow :=
  { baseEscrow with status := EscrowStatus.Disputed }

/-- A disputed escrow that was fully confirmed before the dispute, as
produced by confirm, confirm, dispute: both flags still set. -/
def disputedBothFlags : Escrow :=
  { confirmedEscrow with status := EscrowStatus.Disputed }

/-- A pending escrow with one confirmation, amount 500 and deadline
100. -/
def halfConfirmedEscrow : Escrow :=
  { baseEscrow with
    intermediary_confirmed := true
    amount := 500
    deadline := 100 }

/-- A fully confirmed escrow whose deadline 100 has passed by time
200. -/
def lateConfirmedEscrow : Escrow :=
  { confirmedEscrow with deadline := 100 }

/-- A pending escrow where only the intermediary has confirmed. -/
def halfPendingEscrow : Escrow :=
  { baseEscrow with intermediary_confirmed := true }

/-- A pending escrow on which a release was already initiated. -/
def initiatedEscrow : Escrow :=
  { baseEscrow with is_release_initiated := true }

/-- A cancelled escrow. -/
def cancelledEscrow : Escrow :=
  { baseEscrow with status := EscrowStatus.Cancelled }

/-- Selects the stored identity a role must match, per the match arms of
Confirm::confirm and Revoke::revoke. -/
def roleKey (role : Role) (e : Escrow) : Nat :=
  match role with
  | Role.Intermediary => e.intermediary
  | Role.Receiver => e.receiver

/-- Reads the confirmation flag of a role. -/
def roleFlag (role : Role) (e : Escrow) : Bool :=
  match role with
  | Role.Intermediary => e.intermediary_confirmed
  | Role.Receiver => e.receiver_confirmed

/-- Sets the confirmation flag of a role. -/
def setRoleFlag (role : Role) (e : Escrow) : Escrow :=
  match role with
  | Role.Intermediary => { e with intermediary_confirmed := true }
  | Role.Receiver => { e with receiver_confirmed := true }

/-- C1: the claim says a successful release transfers exactly `amount`
to the intermediary, closes the custody vault, and sets the escrow
status to Released.  On a fully confirmed escrow the handler does
transfer the amount and close the vault, but it never assigns the
status field: the status stays Confirmed and is not Released (the
handler instead sets `is_release_initiated`, a field the committed
Escrow struct does not even declare). -/
theorem c1_release_leaves_status_unreleased :
    (release 2 0 confirmedEscrow 1000 0).err = none ∧
    (release 2 0 confirmedEscrow 1000 0).intermediaryAta = 1000 ∧
    (release 2 0 confirmedEscrow 1000 0).vault = none ∧
    (release 2 0 confirmedEscrow 1000 0).escrow.status = EscrowStatus.Confirmed ∧
    (release 2 0 confirmedEscrow 1000 0).escrow.status ≠ EscrowStatus.Released ∧
    (release 2 0 confirmedEscrow 1000 0).escrow.is_release_initiated = true := by
  decide

/-- C2: the claim says each role-gated operation first checks the
caller identity and fails with Unauthorized on a mismatch, release
being intermediary-only, resolve_dispute arbitrator-only and dispute
restricted to the four parties.  In the code release, dispute and
resolve_dispute never compare the signer with any stored identity:
caller 1 (the sender, not the intermediary) releases successfully,
signer 99 (none of the four parties) disputes successfully, and signer
99 (not the arbitrator) resolves a dispute successfully. -/
theorem c2_missing_role_checks :
    ((1 : Nat) ≠ confirmedEscrow.intermediary ∧
      (release 1 0 confirmedEscrow 1000 0).err = none) ∧
    ((99 : Nat) ≠ baseEscrow.sender ∧ (99 : Nat) ≠ baseEscrow.intermediary ∧
      (99 : Nat) ≠ baseEscrow.receiver ∧ (99 : Nat) ≠ baseEscrow.arbitrator ∧
      (dispute 99 baseEscrow).2 = none) ∧
    ((99 : Nat) ≠ disputedEscrow.arbitrator ∧
      (resolve_dispute 99 DisputeResolution.Cancel disputedEscrow 1000 0 0).err
        = none) := by
  decide

/-- C3 counterexample: the claim says cancel fails with
InvalidEscrowState when the status is Disputed, Released or Cancelled.
The handler never reads the status field: the sender cancels a Disputed
escrow (no confirmations, release not initiated) successfully and is
refunded. -/
theorem c3_cancel_succeeds_from_disputed :
    disputedEscrow.status = EscrowStatus.Disputed ∧
    (cancel 1 50 disputedEscrow 1000 0).err = none ∧
    (cancel 1 50 disputedEscrow 1000 0).senderAta = 1000 ∧
    (cancel 1 50 disputedEscrow 1000 0).vault = none := by
  decide

/-- C4 counterexample: the claim says release fails with
NotFullyConfirmed on every escrow whose status is not Confirmed.  On a
Disputed escrow that was fully confirmed before the dispute (reachable
by confirm, confirm, dispute) release succeeds, because the handler
checks the two confirmation flags and never the status. -/
theorem c4_release_succeeds_from_disputed :
    disputedBothFlags.status ≠ EscrowStatus.Confirmed ∧
    (release 2 0 disputedBothFlags 1000 0).err = none := by
  decide

/-- C5 counterexample: the claim says that with a confirmation flag set
cancel fails with PartialConfirmationNotExpired whenever the current
time is not strictly greater than the deadline, including the instant
current time = deadline.  The handler uses a strict comparison
(timestamp < deadline), so at current time = deadline = 100 a cancel of
a partly confirmed escrow already succeeds. -/
theorem c5_cancel_at_deadline_instant_succeeds :
    halfConfirmedEscrow.intermediary_confirmed = true ∧
    halfConfirmedEscrow.deadline = 100 ∧
    (cancel 1 100 halfConfirmedEscrow 500 0).err = none := by
  decide

/-- C6 counterexample: the claim says confirm fails with
InvalidEscrowState unless the status is Pending and with
AlreadyConfirmed if the flag of the role is already set.  The handler
checks the deadline first, so on a non-Pending escrow past its deadline
it returns ConfirmationPeriodExpired instead of InvalidEscrowState; and
it checks the signer before the flag, so an unauthorized signer gets
Unauthorized even when the flag is already set. -/
theorem c6_confirm_error_priority_differs :
    (lateConfirmedEscrow.status ≠ EscrowStatus.Pending ∧
      (confirm 2 Role.Intermediary 200 lateConfirmedEscrow).2
        = some ConfirmError.ConfirmationPeriodExpired) ∧
    (halfPendingEscrow.intermediary_confirmed = true ∧
      (confirm 9 Role.Intermediary 0 halfPendingEscrow).2
        = some ConfirmError.Unauthorized) := by
  decide

/-- C8 counterexample: the claim says initialize rejects a creation
request whose amount is 0.  Neither the accounts constraints nor the
handler check the amount for positivity: a request with amount 0
succeeds and creates a record whose amount field is 0. -/
theorem c8_zero_amount_accepted :
    (initializeIx 255 1 2 3 4 5 0 3600 0).err = none ∧
    (initializeIx 255 1 2 3 4 5 0 3600 0).escrow
      = some (initialize_escrow 255 1 2 3 4 5 0 3600) ∧
    (initialize_escrow 255 1 2 3 4 5 0 3600).amount = 0 := by
  decide

/-- C3 amended: cancel never inspects the escrow status (its error
outcome is unchanged under any substitution of the status field); it
fails with ReleaseAlreadyInitiated whenever the release flag is set,
and with the release flag clear, no confirmations and a funded vault a
cancel by the sender succeeds regardless of the status, in particular
from Disputed. -/
theorem c3_cancel_checks_initiation_not_status (signer : Nat) (now : Int)
    (e : Escrow) (st : EscrowStatus) (vault sAta : Nat) :
    ((cancel signer now { e with status := st } vault sAta).err
        = (cancel signer now e vault sAta).err) ∧
    (signer = e.sender → e.is_release_initiated = true →
      (cancel signer now e vault sAta).err
        = some CancelError.ReleaseAlreadyInitiated) ∧
    (signer = e.sender → e.is_release_initiated = false →
      e.intermediary_confirmed = false → e.receiver_confirmed = false →
      vault = e.amount →
      (cancel signer now e vault sAta).err = none) := by
  refine ⟨?_, ?_, ?_⟩
  · unfold cancel
    dsimp only
    split_ifs <;> try rfl
    cases htc : transfer_checked vault sAta e.amount with
    | none => rfl
    | some p =>
      obtain ⟨v2, ata2⟩ := p
      dsimp only
      cases hca : close_account v2 <;> rfl
  · intro h1 h2
    subst h1
    unfold cancel
    simp [h2]
  · intro h1 h2 h3 h4 h5
    subst h1
    subst h5
    unfold cancel
    simp [h2, h3, h4, transfer_checked, close_account]

/-- C3 amended, witness: concrete instances of the three clauses. -/
theorem c3_cancel_checks_initiation_not_status_witness :
    ((cancel 1 50 { disputedEscrow with status := EscrowStatus.Released } 1000 0).err
        = (cancel 1 50 disputedEscrow 1000 0).err) ∧
    (cancel 1 50 initiatedEscrow 1000 0).err
        = some CancelError.ReleaseAlreadyInitiated ∧
    (cancel 1 50 disputedEscrow 1000 0).err = none :=
  ⟨(c3_cancel_checks_initiation_not_status 1 50 disputedEscrow
      EscrowStatus.Released 1000 0).1,
   (c3_cancel_checks_initiation_not_status 1 50 initiatedEscrow
      EscrowStatus.Pending 1000 0).2.1 (by decide) (by decide),
   (c3_cancel_checks_initiation_not_status 1 50 disputedEscrow
      EscrowStatus.Pending 1000 0).2.2 (by decide) (by decide) (by decide)
      (by decide) (by decide)⟩

/-- C4 amended: release never inspects the escrow status (its error
outcome is unchanged under any substitution of the status field), and
it fails with NotFullyConfirmed exactly when the two confirmation flags
are not both set. -/
theorem c4_release_checks_flags_not_status (caller : Nat) (now : Int)
    (e : Escrow) (st : EscrowStatus) (vault ata : Nat) :
    ((release caller now { e with status := st } vault ata).err
        = (release caller now e vault ata).err) ∧
    ((release caller now e vault ata).err = some ReleaseError.NotFullyConfirmed
        ↔ (e.intermediary_confirmed && e.receiver_confirmed) = false) := by
  constructor
  · unfold release
    dsimp only
    split_ifs <;> try rfl
    cases htc : transfer_checked vault ata e.amount with
    | none => rfl
    | some p =>
      obtain ⟨v2, ata2⟩ := p
      dsimp only
      cases hca : close_account v2 <;> rfl
  · unfold release
    cases hI : e.intermediary_confirmed <;> cases hR : e.receiver_confirmed <;>
      simp [hI, hR]
    split_ifs with h
    · simp
    · cases htc : transfer_checked vault ata e.amount with
      | none => simp
      | some p =>
        obtain ⟨v2, ata2⟩ := p
        dsimp only
        cases hca : close_account v2 <;> simp

/-- C4 amended, witness: concrete instance at a Disputed, fully
confirmed escrow. -/
theorem c4_release_checks_flags_not_status_witness :
    ((release 2 0 { disputedBothFlags with status := EscrowStatus.Pending } 1000 0).err
        = (release 2 0 disputedBothFlags 1000 0).err) ∧
    ((release 2 0 disputedBothFlags 1000 0).err = some ReleaseError.NotFullyConfirmed
        ↔ (disputedBothFlags.intermediary_confirmed
            && disputedBothFlags.receiver_confirmed) = false) :=
  c4_release_checks_flags_not_status 2 0 disputedBothFlags EscrowStatus.Pending 1000 0

/-- C5 amended: with a confirmation flag set and the release flag
clear, a cancel by the sender fails with PartialConfirmationNotExpired
whenever the current time is strictly before the deadline, and is never
rejected with that error once current time ≥ deadline (the instant
current time = deadline is already allowed); with both confirmation
flags clear cancel is never rejected on temporal grounds. -/
theorem c5_cancel_temporal_window (now : Int) (e : Escrow) (vault sAta : Nat) :
    ((e.intermediary_confirmed || e.receiver_confirmed) = true →
      e.is_release_initiated = false → now < e.deadline →
      (cancel e.sender now e vault sAta).err
        = some CancelError.PartialConfirmationNotExpired) ∧
    (e.deadline ≤ now →
      (cancel e.sender now e vault sAta).err
        ≠ some CancelError.PartialConfirmationNotExpired) ∧
    ((e.intermediary_confirmed || e.receiver_confirmed) = false →
      (cancel e.sender now e vault sAta).err
        ≠ some CancelError.PartialConfirmationNotExpired) := by
  refine ⟨?_, ?_, ?_⟩
  · intro hflag hinit hlt
    unfold cancel
    simp [hflag, hinit, hlt]
  · intro hge
    unfold cancel
    split_ifs with h1 h2 h3
    · simp
    · simp
    · exact absurd h3.2 (not_lt.mpr hge)
    · cases htc : transfer_checked vault sAta e.amount with
      | none => simp
      | some p =>
        obtain ⟨v2, ata2⟩ := p
        dsimp only
        cases hca : close_account v2 <;> simp
  · intro hflag
    unfold cancel
    split_ifs with h1 h2 h3
    · simp
    · simp
    · rw [hflag] at h3
      exact absurd h3.1 (by decide)
    · cases htc : transfer_checked vault sAta e.amount with
      | none => simp
      | some p =>
        obtain ⟨v2, ata2⟩ := p
        dsimp only
        cases hca : close_account v2 <;> simp

/-- C5 amended, witness: the Scenario C shape, amount 500, deadline
100: the sender cancel fails at time 50 and is not temporally rejected
at time 150 or at the deadline instant 100. -/
theorem c5_cancel_temporal_window_witness :
    (cancel halfConfirmedEscrow.sender 50 halfConfirmedEscrow 500 0).err
      = some CancelError.PartialConfirmationNotExpired ∧
    (cancel halfConfirmedEscrow.sender 150 halfConfirmedEscrow 500 0).err
      ≠ some CancelError.PartialConfirmationNotExpired ∧
    (cancel halfConfirmedEscrow.sender 100 halfConfirmedEscrow 500 0).err
      ≠ some CancelError.PartialConfirmationNotExpired :=
  ⟨(c5_cancel_temporal_window 50 halfConfirmedEscrow 500 0).1 (by decide)
      (by decide) (by decide),
   (c5_cancel_temporal_window 150 halfConfirmedEscrow 500 0).2.1 (by decide),
   (c5_cancel_temporal_window 100 halfConfirmedEscrow 500 0).2.1 (by decide)⟩

/-- C6 amended: confirm checks the deadline first and fails with
ConfirmationPeriodExpired if current time > deadline; otherwise it
fails with InvalidEscrowState unless the status is Pending; otherwise
it fails with Unauthorized unless the signer is the identity of the
role; otherwise it fails with AlreadyConfirmed if the flag of that role
is already set; otherwise it sets the flag and the status advances
Pending → Confirmed in the same call exactly when both flags are then
true.  No other operation ever sets the status to Confirmed. -/
theorem c6_confirm_cascade (signer : Nat) (role : Role) (now : Int) (e : Escrow) :
    (now > e.deadline →
      confirm signer role now e = (e, some ConfirmError.ConfirmationPeriodExpired)) ∧
    (now ≤ e.deadline → e.status ≠ EscrowStatus.Pending →
      confirm signer role now e = (e, some ConfirmError.InvalidEscrowState)) ∧
    (now ≤ e.deadline → e.status = EscrowStatus.Pending → signer ≠ roleKey role e →
      confirm signer role now e = (e, some ConfirmError.Unauthorized)) ∧
    (now ≤ e.deadline → e.status = EscrowStatus.Pending → signer = roleKey role e →
      roleFlag role e = true →
      confirm signer role now e = (e, some ConfirmError.AlreadyConfirmed)) ∧
    (now ≤ e.deadline → e.status = EscrowStatus.Pending → signer = roleKey role e →
      roleFlag role e = false →
      (confirm signer role now e).2 = none ∧
      roleFlag role (confirm signer role now e).1 = true ∧
      (confirm signer role now e).1.status =
        (if (setRoleFlag role e).intermediary_confirmed
            && (setRoleFlag role e).receiver_confirmed
         then EscrowStatus.Confirmed else EscrowStatus.Pending)) ∧
    ((revoke signer role now e).1.status = e.status) ∧
    ((dispute signer e).1.status = EscrowStatus.Confirmed →
      e.status = EscrowStatus.Confirmed) ∧
    (∀ v a, (release signer now e v a).escrow.status = e.status) ∧
    (∀ v a, (cancel signer now e v a).escrow.status = e.status) ∧
    (∀ r v ia sa, (resolve_dispute signer r e v ia sa).escrow.status
        = EscrowStatus.Confirmed → e.status = EscrowStatus.Confirmed) ∧
    (∀ b s i r a m amt dl, (initialize_escrow b s i r a m amt dl).status
        = EscrowStatus.Pending) := by
  refine ⟨?_, ?_, ?_, ?_, ?_, ?_, ?_, ?_, ?_, ?_, ?_⟩
  · intro h
    unfold confirm
    simp [h]
  · intro h1 h2
    unfold confirm
    simp [not_lt.mpr h1, h2]
  · intro h1 h2 h3
    cases role <;>
      (simp only [roleKey] at h3; unfold confirm; simp [not_lt.mpr h1, h2, h3])
  · intro h1 h2 h3 h4
    cases role <;>
      (simp only [roleKey] at h3
       simp only [roleFlag] at h4
       subst h3
       unfold confirm
       simp [not_lt.mpr h1, h2, h4])
  · intro h1 h2 h3 h4
    cases role
    case Intermediary =>
      simp only [roleKey] at h3
      simp only [roleFlag] at h4
      subst h3
      cases hR : e.receiver_confirmed <;>
        simp [confirm, finishConfirm, setRoleFlag, roleFlag, not_lt.mpr h1,
          h2, h4, hR]
    case Receiver =>
      simp only [roleKey] at h3
      simp only [roleFlag] at h4
      subst h3
      cases hI : e.intermediary_confirmed <;>
        simp [confirm, finishConfirm, setRoleFlag, roleFlag, not_lt.mpr h1,
          h2, h4, hI]
  · unfold revoke
    cases role <;> (dsimp only; split_ifs <;> rfl)
  · unfold dispute
    split_ifs with h
    · exact fun h2 => h2
    · intro h2
      exact absurd h2 (by simp)
  · intro v a
    unfold release
    dsimp only
    split_ifs <;> try rfl
    cases htc : transfer_checked v a e.amount with
    | none => rfl
    | some p =>
      obtain ⟨v2, ata2⟩ := p
      dsimp only
      cases hca : close_account v2 <;> rfl
  · intro v a
    unfold cancel
    split_ifs <;> try rfl
    cases htc : transfer_checked v a e.amount with
    | none => rfl
    | some p =>
      obtain ⟨v2, ata2⟩ := p
      dsimp only
      cases hca : close_account v2 <;> rfl
  · intro r v ia sa
    unfold resolve_dispute
    split_ifs with h
    · exact fun h2 => h2
    · cases r
      · cases htc : transfer_checked v ia e.amount with
        | none => exact fun h2 => h2
        | some p =>
          obtain ⟨v2, ata2⟩ := p
          dsimp only
          cases hca : close_account v2 with
          | none => exact fun h2 => h2
          | some u => intro h2; exact absurd h2 (by simp)
      · cases htc : transfer_checked v sa e.amount with
        | none => exact fun h2 => h2
        | some p =>
          obtain ⟨v2, ata2⟩ := p
          dsimp only
          cases hca : close_account v2 with
          | none => exact fun h2 => h2
          | some u => intro h2; exact absurd h2 (by simp)
  · intro b s i r a m amt dl
    rfl

/-- C6 amended, witness: deadline-first error priority on a Confirmed
escrow past its deadline, and a successful first confirmation on a
pending escrow. -/
theorem c6_confirm_cascade_witness :
    confirm 2 Role.Intermediary 200 lateConfirmedEscrow
      = (lateConfirmedEscrow, some ConfirmError.ConfirmationPeriodExpired) ∧
    (confirm 2 Role.Intermediary 10 baseEscrow).2 = none :=
  ⟨(c6_confirm_cascade 2 Role.Intermediary 200 lateConfirmedEscrow).1 (by decide),
   ((c6_confirm_cascade 2 Role.Intermediary 10 baseEscrow).2.2.2.2.1 (by decide)
      (by decide) (by decide) (by decide)).1⟩

/-- C7: resolve_dispute fails with InvalidEscrowState on every escrow
whose status is not Disputed; from Disputed with the custody vault
holding exactly `amount`, resolution Release moves exactly `amount` to
the intermediary token account, closes the vault and sets the status to
Released, and resolution Cancel moves exactly `amount` back to the
sender token account, closes the vault and sets the status to
Cancelled; on every error outcome (including transfer or close
failures) the escrow record, and with it the status, is unchanged. -/
theorem c7_resolve_dispute_correct (signer : Nat) (resolution : DisputeResolution)
    (e : Escrow) (vault ia sa : Nat) :
    (e.status ≠ EscrowStatus.Disputed →
      resolve_dispute signer resolution e vault ia sa
        = ⟨e, some vault, ia, sa, some ResolveDisputeError.InvalidEscrowState⟩) ∧
    (e.status = EscrowStatus.Disputed → vault = e.amount →
      resolution = DisputeResolution.Release →
      resolve_dispute signer resolution e vault ia sa
        = ⟨{ e with status := EscrowStatus.Released }, none, ia + e.amount, sa, none⟩) ∧
    (e.status = EscrowStatus.Disputed → vault = e.amount →
      resolution = DisputeResolution.Cancel →
      resolve_dispute signer resolution e vault ia sa
        = ⟨{ e with status := EscrowStatus.Cancelled }, none, ia, sa + e.amount, none⟩) ∧
    ((resolve_dispute signer resolution e vault ia sa).err ≠ none →
      (resolve_dispute signer resolution e vault ia sa).escrow = e) := by
  refine ⟨?_, ?_, ?_, ?_⟩
  · intro h
    unfold resolve_dispute
    simp [h]
  · intro h1 h2 h3
    subst h2
    subst h3
    unfold resolve_dispute
    simp [h1, transfer_checked, close_account]
  · intro h1 h2 h3
    subst h2
    subst h3
    unfold resolve_dispute
    simp [h1, transfer_checked, close_account]
  · unfold resolve_dispute
    split_ifs with h
    · intro _; rfl
    · cases resolution
      · cases htc : transfer_checked vault ia e.amount with
        | none => intro _; rfl
        | some p =>
          obtain ⟨v2, ata2⟩ := p
          dsimp only
          cases hca : close_account v2 with
          | none => intro _; rfl
          | some u => intro hne; exact absurd rfl hne
      · cases htc : transfer_checked vault sa e.amount with
        | none => intro _; rfl
        | some p =>
          obtain ⟨v2, ata2⟩ := p
          dsimp only
          cases hca : close_account v2 with
          | none => intro _; rfl
          | some u => intro hne; exact absurd rfl hne

/-- C7, witness: the arbitrator resolves a fully funded Disputed escrow
each way, and resolve_dispute rejects a Confirmed escrow. -/
theorem c7_resolve_dispute_correct_witness :
    resolve_dispute 4 DisputeResolution.Release disputedBothFlags 1000 0 0
      = ⟨{ disputedBothFlags with status := EscrowStatus.Released }, none, 1000, 0, none⟩ ∧
    resolve_dispute 4 DisputeResolution.Cancel disputedEscrow 1000 0 0
      = ⟨{ disputedEscrow with status := EscrowStatus.Cancelled }, none, 0, 1000, none⟩ ∧
    resolve_dispute 4 DisputeResolution.Release confirmedEscrow 1000 0 0
      = ⟨confirmedEscrow, some 1000, 0, 0, some ResolveDisputeError.InvalidEscrowState⟩ :=
  ⟨(c7_resolve_dispute_correct 4 DisputeResolution.Release disputedBothFlags
      1000 0 0).2.1 (by decide) (by decide) rfl,
   (c7_resolve_dispute_correct 4 DisputeResolution.Cancel disputedEscrow
      1000 0 0).2.2.1 (by decide) (by decide) rfl,
   (c7_resolve_dispute_correct 4 DisputeResolution.Release confirmedEscrow
      1000 0 0).1 (by decide)⟩

/-- C8 amended: initialize performs no positivity check on the amount:
it succeeds whenever the sender token balance covers the requested
amount (including amount 0), the created record stores exactly the
requested amount, and the only rejection of a creation request is the
balance constraint. -/
theorem c8_amount_stored_unchecked (b s i r a m amt : Nat) (dl : Int) (sAta : Nat) :
    (amt ≤ sAta →
      (initializeIx b s i r a m amt dl sAta).err = none ∧
      (initializeIx b s i r a m amt dl sAta).escrow
        = some (initialize_escrow b s i r a m amt dl) ∧
      (initializeIx b s i r a m amt dl sAta).vault = amt) ∧
    (initialize_escrow b s i r a m amt dl).amount = amt ∧
    (sAta < amt →
      (initializeIx b s i r a m amt dl sAta).err
        = some InitializeError.ConstraintRaised) := by
  refine ⟨?_, rfl, ?_⟩
  · intro h
    unfold initializeIx
    simp [not_lt.mpr h, transfer_checked, h]
  · intro h
    unfold initializeIx
    simp [h]

/-- C8 amended, witness: a creation request with amount 0 succeeds and
the record stores amount 0. -/
theorem c8_amount_stored_unchecked_witness :
    ((initializeIx 255 1 2 3 4 5 0 3600 0).err = none ∧
      (initializeIx 255 1 2 3 4 5 0 3600 0).escrow
        = some (initialize_escrow 255 1 2 3 4 5 0 3600) ∧
      (initializeIx 255 1 2 3 4 5 0 3600 0).vault = 0) ∧
    (initialize_escrow 255 1 2 3 4 5 0 3600).amount = 0 :=
  ⟨(c8_amount_stored_unchecked 255 1 2 3 4 5 0 3600 0).1 (by decide),
   (c8_amount_stored_unchecked 255 1 2 3 4 5 0 3600 0).2.1⟩

/-- C9: whenever confirm, revoke or dispute returns an error, the
escrow record at the point of the early return is exactly the input
record: every field assignment in these three handlers happens after
all error checks have passed. -/
theorem c9_guarded_ops_unchanged_on_error (signer : Nat) (role : Role)
    (now : Int) (e : Escrow) :
    ((confirm signer role now e).2.isSome = true →
      (confirm signer role now e).1 = e) ∧
    ((revoke signer role now e).2.isSome = true →
      (revoke signer role now e).1 = e) ∧
    ((dispute signer e).2.isSome = true → (dispute signer e).1 = e) := by
  refine ⟨?_, ?_, ?_⟩
  · unfold confirm
    cases role
    all_goals
      dsimp only
      split_ifs <;> intro h <;>
        first
          | rfl
          | (exfalso
             unfold finishConfirm at h
             split_ifs at h <;> simp at h)
  · unfold revoke
    cases role
    all_goals
      dsimp only
      split_ifs <;> intro h <;> first | rfl | simp at h
  · unfold dispute
    split_ifs <;> intro h
    · rfl
    · simp at h

/-- C9, witness: an unauthorized confirm, an unauthorized revoke and a
dispute of a Cancelled escrow all leave the record unchanged. -/
theorem c9_guarded_ops_unchanged_on_error_witness :
    (confirm 9 Role.Intermediary 0 baseEscrow).1 = baseEscrow ∧
    (revoke 9 Role.Intermediary 0 baseEscrow).1 = baseEscrow ∧
    (dispute 9 cancelledEscrow).1 = cancelledEscrow :=
  ⟨(c9_guarded_ops_unchanged_on_error 9 Role.Intermediary 0 baseEscrow).1
      (by decide),
   (c9_guarded_ops_unchanged_on_error 9 Role.Intermediary 0 baseEscrow).2.1
      (by decide),
   (c9_guarded_ops_unchanged_on_error 9 Role.Intermediary 0 cancelledEscrow).2.2
      (by decide)⟩

/-- C10: the outcome of release is independent of the current time (the
handler reads no clock), and a fully confirmed, fully funded escrow on
which release was not yet initiated is released successfully at any
time, in particular strictly after the deadline. -/
theorem c10_release_time_independent (caller : Nat) (t1 t2 : Int) (e : Escrow)
    (vault ata : Nat) :
    (release caller t1 e vault ata = release caller t2 e vault ata) ∧
    (e.intermediary_confirmed = true → e.receiver_confirmed = true →
      e.is_release_initiated = false → vault = e.amount → t1 > e.deadline →
      (release caller t1 e vault ata).err = none) := by
  constructor
  · rfl
  · intro h1 h2 h3 h4 _
    subst h4
    unfold release
    simp [h1, h2, h3, transfer_checked, close_account]

/-- C10, witness: a fully confirmed escrow with deadline 3600 is
released at time 4000 with the same outcome as at time 0. -/
theorem c10_release_time_independent_witness :
    (release 2 4000 confirmedEscrow 1000 0 = release 2 0 confirmedEscrow 1000 0) ∧
    (release 2 4000 confirmedEscrow 1000 0).err = none :=
  ⟨(c10_release_time_independent 2 4000 0 confirmedEscrow 1000 0).1,
   (c10_release_time_independent 2 4000 0 confirmedEscrow 1000 0).2 (by decide)
      (by decide) (by decide) (by decide) (by decide)⟩
